import Mathlib

/-!
Shallow embedding of the `ai-blog-generator` repository
(`seo_fetcher.py` and `ai_generator.py`) and proofs about the
behaviour its specification claims.

Conventions used throughout:
* Python strings are modelled as `List Char`; `s.data` converts a Lean
  string literal to that representation.
* Calls to `random.randint` / `random.uniform` / `random.sample` are
  modelled by passing the drawn values in explicitly (`SeoDraws`); the
  predicate `SeoDraws.Valid` records the exact ranges the source requests
  for each draw.
* Python floats are modelled by exact rationals; `round(x)` (banker's
  rounding) is modelled by `pyRoundQ`, `round(x, 2)` by `round2`.
* The specific regular expressions used by the source are implemented as
  dedicated scanners with Python `re` semantics (leftmost match,
  non-greedy groups with backtracking, `re.sub` continuing after each
  replaced region).
-/

attribute [local semireducible] Rat.mul Rat.add Rat.sub Rat.inv

set_option maxRecDepth 40000

namespace BlogGen

/-! ### Python string primitives -/

/-- Python's whitespace set for `str.strip` / `str.split` (ASCII part). -/
def pyIsSpace (c : Char) : Bool :=
  c = ' ' || c = '\t' || c = '\n' || c = '\r' || c = '\x0b' || c = '\x0c'

/-- Python `str.lstrip()`. -/
def ltrim (l : List Char) : List Char := l.dropWhile pyIsSpace

/-- Python `str.rstrip()`. -/
def rtrim (l : List Char) : List Char := (l.reverse.dropWhile pyIsSpace).reverse

/-- Python `str.strip()`. -/
def pyStrip (l : List Char) : List Char := rtrim (ltrim l)

/-- Python `str.lower()` (ASCII part). -/
def lowerStr (l : List Char) : List Char := l.map Char.toLower

/-- Python's substring test `pat in s` (Boolean scanner). -/
def containsSub (pat : List Char) : List Char → Bool
  | [] => pat.isEmpty
  | c :: cs => pat.isPrefixOf (c :: cs) || containsSub pat cs

/-- Python `s.split('\n')` (keeps empty pieces). -/
def splitNl : List Char → List (List Char)
  | [] => [[]]
  | c :: cs =>
    if c = '\n' then [] :: splitNl cs
    else
      match splitNl cs with
      | [] => [[c]]
      | p :: ps => (c :: p) :: ps

def splitWsAux (cur : List Char) : List Char → List (List Char)
  | [] => if cur.isEmpty then [] else [cur.reverse]
  | c :: cs =>
    if pyIsSpace c then
      if cur.isEmpty then splitWsAux [] cs else cur.reverse :: splitWsAux [] cs
    else splitWsAux (c :: cur) cs

/-- Python `s.split()` with no argument: maximal runs of non-whitespace. -/
def pySplitWs (l : List Char) : List (List Char) := splitWsAux [] l

/-- Python `s.rsplit(' ', 1)[0]`: everything before the last space,
or the whole string when it has no space. -/
def beforeLastSpace (l : List Char) : List Char :=
  match l.reverse.dropWhile (fun c => !(c = ' ')) with
  | [] => l
  | _ :: before => before.reverse

/-- Python `str.title()` (ASCII part): uppercase a letter that does not
follow a letter, lowercase the rest. -/
def pyTitleAux (prevAlpha : Bool) : List Char → List Char
  | [] => []
  | c :: cs => (if prevAlpha then c.toLower else c.toUpper) :: pyTitleAux c.isAlpha cs

def pyTitle (l : List Char) : List Char := pyTitleAux false l

/-- Python `str.replace(pat, rep)` (all occurrences, left to right,
non-overlapping).  The fuel argument only bounds the recursion; every
call supplies `l.length`, which is always sufficient because the
patterns used by the source are non-empty. -/
def replaceAllAux (pat rep : List Char) : Nat → List Char → List Char
  | 0, l => l
  | fuel + 1, l =>
    if pat.isPrefixOf l && !pat.isEmpty then
      rep ++ replaceAllAux pat rep fuel (l.drop pat.length)
    else
      match l with
      | [] => []
      | c :: cs => c :: replaceAllAux pat rep fuel cs

def replaceAll (pat rep l : List Char) : List Char :=
  replaceAllAux pat rep l.length l

/-! ### Python `round` on exact rationals -/

/-- Executable floor on `ℚ` (agrees with `Int.floor`, see
`ratFloor_eq_floor`). -/
def ratFloor (q : ℚ) : ℤ := q.num / (q.den : ℤ)

/-- Python `int(x)`: truncation toward zero. -/
def pyInt (q : ℚ) : ℤ := q.num.tdiv (q.den : ℤ)

/-- Python `round(x)`: nearest integer, ties to even. -/
def pyRoundQ (q : ℚ) : ℤ :=
  if q - ratFloor q < 1/2 then ratFloor q
  else if 1/2 < q - ratFloor q then ratFloor q + 1
  else if ratFloor q % 2 = 0 then ratFloor q else ratFloor q + 1

/-- Python `round(x, 2)`. -/
def round2 (q : ℚ) : ℚ := (pyRoundQ (q * 100) : ℚ) / 100

/-! ### `seo_fetcher.py` -/

/-- Source: `seo_fetcher.py` line 50. -/
def commercial_keywords : List (List Char) :=
  ["buy".data, "best".data, "review".data, "price".data, "cheap".data,
   "discount".data, "deal".data]

/-- Source: `seo_fetcher.py` line 51. -/
def informational_keywords : List (List Char) :=
  ["how".data, "what".data, "why".data, "guide".data, "tutorial".data,
   "tips".data]

/-- The test `any(word in keyword_lower for word in commercial_keywords)`. -/
def commercialMatch (kwLower : List Char) : Bool :=
  commercial_keywords.any (fun w => containsSub w kwLower)

/-- The test `any(word in keyword_lower for word in informational_keywords)`. -/
def informationalMatch (kwLower : List Char) : Bool :=
  informational_keywords.any (fun w => containsSub w kwLower)

/-- Source: `seo_fetcher.py` lines 90-93. -/
def base_modifiers : List (List Char) :=
  ["best".data, "top".data, "review".data, "guide".data, "how to".data,
   "cheap".data, "discount".data, "2024".data, "2025".data, "buy".data,
   "price".data, "vs".data, "comparison".data, "alternative".data]

/-- Model of `generate_related_keywords` (`seo_fetcher.py` lines 88-112); the
`random.sample(base_modifiers, 5)` result is the `sampleMods` argument. -/
def generate_related_keywords (main_keyword : List Char)
    (sampleMods : List (List Char)) : List (List Char) :=
  let words := pySplitWs main_keyword
  let related := sampleMods.map (fun modifier =>
    if modifier = "how to".data then
      modifier ++ " choose ".data ++ main_keyword
    else if modifier = "vs".data ∨ modifier = "comparison".data then
      main_keyword ++ " ".data ++ modifier
    else
      modifier ++ " ".data ++ main_keyword)
  let related :=
    if words.length > 1 then
      related ++ [List.intercalate " ".data words.reverse]
    else related
  related.take 8

/-- Model of `get_competition_level` (`seo_fetcher.py` lines 132-139). -/
def get_competition_level (difficulty_score : ℤ) : List Char :=
  if difficulty_score < 30 then "Low".data
  else if difficulty_score < 60 then "Medium".data
  else "High".data

structure SeoPage where
  url : List Char
  title : List Char
  domain_authority : ℕ
deriving Repr, DecidableEq

structure SeoData where
  keyword : List Char
  search_volume : ℤ
  keyword_difficulty : ℕ
  avg_cpc : ℚ
  related_keywords : List (List Char)
  top_ranking_pages : List SeoPage
  search_trends : List (List Char × ℕ)
  competition_level : List Char
  suggested_bid : ℚ
deriving Repr, DecidableEq

/-- All random draws consumed by one call of `generate_mock_seo_data`.
Each field records the result of the corresponding `random.randint`,
`random.uniform` or `random.sample` call; `SeoDraws.Valid` states the
ranges the source requests. -/
structure SeoDraws where
  bandVolume : ℕ
  bandDifficulty : ℕ
  bandCpc : ℚ
  commCpcFactor : ℚ
  commVolFactor : ℚ
  infoCpcFactor : ℚ
  infoVolFactor : ℚ
  sampleMods : List (List Char)
  pagePicks : List ℕ
  pageDAs : List ℕ
  trendBase : ℕ
  trendVars : List ℤ
  bidFactor : ℚ
deriving Repr, DecidableEq

/-- The ranges requested from the random source by
`generate_mock_seo_data` (`seo_fetcher.py` lines 29-86), the band being
selected by the keyword's word count exactly as in the source. -/
def SeoDraws.Valid (d : SeoDraws) (keyword : List Char) : Prop :=
  (let wc := (pySplitWs keyword).length
   if wc ≥ 4 then
     100 ≤ d.bandVolume ∧ d.bandVolume ≤ 2000 ∧
     15 ≤ d.bandDifficulty ∧ d.bandDifficulty ≤ 45 ∧
     (1/2 : ℚ) ≤ d.bandCpc ∧ d.bandCpc ≤ 7/2
   else if wc = 3 then
     1000 ≤ d.bandVolume ∧ d.bandVolume ≤ 8000 ∧
     35 ≤ d.bandDifficulty ∧ d.bandDifficulty ≤ 65 ∧
     (3/2 : ℚ) ≤ d.bandCpc ∧ d.bandCpc ≤ 6
   else
     5000 ≤ d.bandVolume ∧ d.bandVolume ≤ 50000 ∧
     60 ≤ d.bandDifficulty ∧ d.bandDifficulty ≤ 95 ∧
     (3 : ℚ) ≤ d.bandCpc ∧ d.bandCpc ≤ 15) ∧
  (3/2 : ℚ) ≤ d.commCpcFactor ∧ d.commCpcFactor ≤ 5/2 ∧
  (4/5 : ℚ) ≤ d.commVolFactor ∧ d.commVolFactor ≤ 6/5 ∧
  (3/10 : ℚ) ≤ d.infoCpcFactor ∧ d.infoCpcFactor ≤ 4/5 ∧
  (6/5 : ℚ) ≤ d.infoVolFactor ∧ d.infoVolFactor ≤ 9/5 ∧
  d.sampleMods.length = 5 ∧ d.sampleMods.Nodup ∧
  (∀ m ∈ d.sampleMods, m ∈ base_modifiers) ∧
  d.pagePicks.length = 5 ∧ (∀ p ∈ d.pagePicks, 5 ≤ p ∧ p ≤ 15) ∧
  d.pageDAs.length = 5 ∧ (∀ p ∈ d.pageDAs, 40 ≤ p ∧ p ≤ 90) ∧
  70 ≤ d.trendBase ∧ d.trendBase ≤ 100 ∧
  d.trendVars.length = 12 ∧ (∀ v ∈ d.trendVars, -20 ≤ v ∧ v ≤ 30) ∧
  (4/5 : ℚ) ≤ d.bidFactor ∧ d.bidFactor ≤ 6/5

instance (d : SeoDraws) (keyword : List Char) :
    Decidable (d.Valid keyword) := by
  unfold SeoDraws.Valid; infer_instance

/-- Source: `seo_fetcher.py` lines 116-119. -/
def trendMonths : List (List Char) :=
  ["Jan".data, "Feb".data, "Mar".data, "Apr".data, "May".data, "Jun".data,
   "Jul".data, "Aug".data, "Sep".data, "Oct".data, "Nov".data, "Dec".data]

/-- Model of `generate_search_trends` (`seo_fetcher.py` lines 114-130), the base
volume and per-month variations passed in explicitly. -/
def generate_search_trends (base : ℕ) (vars : List ℤ) :
    List (List Char × ℕ) :=
  (List.range 12).map (fun i =>
    (trendMonths.getD i [], (max 10 ((base : ℤ) + vars.getD i 0)).toNat))

/-- Model of `generate_mock_seo_data` (`seo_fetcher.py` lines 29-86) with the
random draws passed in via `d`. -/
def generate_mock_seo_data (keyword : List Char) (d : SeoDraws) : SeoData :=
  let search_volume : ℤ := d.bandVolume
  let keyword_difficulty := d.bandDifficulty
  let avg_cpc := round2 d.bandCpc
  let keyword_lower := lowerStr keyword
  let adjusted :=
    if commercialMatch keyword_lower then
      (avg_cpc * d.commCpcFactor, pyInt ((search_volume : ℚ) * d.commVolFactor))
    else if informationalMatch keyword_lower then
      (avg_cpc * d.infoCpcFactor, pyInt ((search_volume : ℚ) * d.infoVolFactor))
    else (avg_cpc, search_volume)
  let avg_cpc := adjusted.1
  let search_volume := adjusted.2
  let related_keywords := generate_related_keywords keyword d.sampleMods
  let top_pages := (List.range 5).map (fun i =>
    { url := "https://example".data ++ (toString (i + 1)).data
        ++ ".com/article-about-".data ++ replaceAll " ".data "-".data keyword
      title := "Ultimate Guide to ".data ++ pyTitle keyword ++ " - Top ".data
        ++ (toString (d.pagePicks.getD i 0)).data ++ " Picks".data
      domain_authority := d.pageDAs.getD i 0 : SeoPage })
  { keyword := keyword
    search_volume := search_volume
    keyword_difficulty := keyword_difficulty
    avg_cpc := round2 avg_cpc
    related_keywords := related_keywords
    top_ranking_pages := top_pages
    search_trends := generate_search_trends d.trendBase d.trendVars
    competition_level := get_competition_level keyword_difficulty
    suggested_bid := round2 (avg_cpc * d.bidFactor) }

/-! ### `ai_generator.py`: regex scanners

`re.search(r'<h1[^>]*>(.*?)</h1>', ...)` and friends are modelled by
scanners that try a match at every position from the left (Python
`re.search` semantics); the non-greedy group takes the shortest body
ending in the closing pattern. -/

/-- Consume `[^>]*` followed by a literal `>` and return the rest. -/
def afterOpenTag : List Char → Option (List Char)
  | [] => none
  | c :: cs => if c = '>' then some cs else afterOpenTag cs

/-- Match `[^>]+>` (used for `re.sub(r'<[^>]+>', '', ...)` after the
leading `<`); returns the rest after the closing `>`. -/
def tagEnd : List Char → Option (List Char)
  | [] => none
  | c :: cs => if c = '>' then none else afterOpenTag cs

def stripTagsAux : Nat → List Char → List Char
  | 0, l => l
  | _ + 1, [] => []
  | fuel + 1, c :: cs =>
    if c = '<' then
      match tagEnd cs with
      | some rest => stripTagsAux fuel rest
      | none => c :: stripTagsAux fuel cs
    else c :: stripTagsAux fuel cs

/-- The substitution `re.sub(r'<[^>]+>', '', content)`. -/
def stripTags (l : List Char) : List Char := stripTagsAux l.length l

/-- Shortest group of a non-greedy `(.*?)` followed by a closing pattern
recognised by `stop`. -/
def scanUntil (stop : List Char → Bool) : List Char → Option (List Char)
  | [] => if stop [] then some [] else none
  | c :: cs =>
    if stop (c :: cs) then some []
    else (scanUntil stop cs).map (c :: ·)

def headingDigits : List Char := ['1', '2', '3', '4', '5', '6']

/-- Test for `</h1>`, case-insensitively, at the current position. -/
def closeH1 : List Char → Bool
  | a :: b :: c :: d :: e :: _ =>
    a == '<' && b == '/' && c.toLower == 'h' && d == '1' && e == '>'
  | _ => false

/-- Test for `</h[1-6]>`, case-insensitively, at the current position. -/
def closeHeading : List Char → Bool
  | a :: b :: c :: d :: e :: _ =>
    a == '<' && b == '/' && c.toLower == 'h' && headingDigits.contains d && e == '>'
  | _ => false

/-- Test for `</title>`, case-insensitively, at the current position. -/
def closeTitleTag : List Char → Bool
  | a :: b :: c :: d :: e :: f :: g :: h :: _ =>
    lowerStr [a, b, c, d, e, f, g, h] == "</title>".data
  | _ => false

/-- Try `<h1[^>]*>(.*?)</h1>` (IGNORECASE, DOTALL) at the current
position; returns the group. -/
def matchH1At : List Char → Option (List Char)
  | a :: b :: c :: rest =>
    if a == '<' && b.toLower == 'h' && c == '1' then
      match afterOpenTag rest with
      | some body => scanUntil closeH1 body
      | none => none
    else none
  | _ => none

/-- Try `<h[1-6][^>]*>(.*?)</h[1-6]>` at the current position. -/
def matchHeadingAt : List Char → Option (List Char)
  | a :: b :: c :: rest =>
    if a == '<' && b.toLower == 'h' && headingDigits.contains c then
      match afterOpenTag rest with
      | some body => scanUntil closeHeading body
      | none => none
    else none
  | _ => none

/-- Try `<title[^>]*>(.*?)</title>` at the current position. -/
def matchTitleAt : List Char → Option (List Char)
  | a :: b :: c :: d :: e :: f :: rest =>
    if lowerStr [a, b, c, d, e, f] == "<title".data then
      match afterOpenTag rest with
      | some body => scanUntil closeTitleTag body
      | none => none
    else none
  | _ => none

def searchH1 : List Char → Option (List Char)
  | [] => none
  | c :: cs =>
    match matchH1At (c :: cs) with
    | some g => some g
    | none => searchH1 cs

def searchHeading : List Char → Option (List Char)
  | [] => none
  | c :: cs =>
    match matchHeadingAt (c :: cs) with
    | some g => some g
    | none => searchHeading cs

def searchTitleTag : List Char → Option (List Char)
  | [] => none
  | c :: cs =>
    match matchTitleAt (c :: cs) with
    | some g => some g
    | none => searchTitleTag cs

/-- The `for line in content.split('\n')` fallback loop of
`extract_title` (`ai_generator.py` lines 175-181). -/
def firstLongLine : List (List Char) → List Char
  | [] => "Generated Blog Post".data
  | line :: rest =>
    let clean_line := pyStrip (stripTags line)
    if !clean_line.isEmpty && clean_line.length > 10 then
      clean_line.take 100 ++ (if clean_line.length > 100 then "...".data else [])
    else firstLongLine rest

/-- Model of `extract_title` (`ai_generator.py` lines 157-181). -/
def extract_title (content : List Char) : List Char :=
  match searchH1 content with
  | some g => pyStrip g
  | none =>
    match searchHeading content with
    | some g => pyStrip g
    | none =>
      match searchTitleTag content with
      | some g => pyStrip g
      | none => firstLongLine (splitNl content)

/-- Model of `extract_title_text` (`ai_generator.py` lines 183-186). -/
def extract_title_text (content : List Char) : List Char :=
  pyStrip (stripTags (extract_title content))

/-! ### `ai_generator.py`: `clean_markdown_artifacts` -/

/-- One global `re.sub(pat ++ r'\s*', '', ...)` pass for a literal,
non-empty `pat` (used with ``` ``` `` and ``` ```html ``). -/
def removeFencePassAux (pat : List Char) : Nat → List Char → List Char
  | 0, l => l
  | fuel + 1, l =>
    if pat.isPrefixOf l then
      removeFencePassAux pat fuel (ltrim (l.drop pat.length))
    else
      match l with
      | [] => []
      | c :: cs => c :: removeFencePassAux pat fuel cs

def removeFencePass (pat l : List Char) : List Char :=
  removeFencePassAux pat l.length l

/-- The backtracking tail `(.*?)</head>\s*<body>\s*<!DOCTYPE html>` of
the duplicated-preamble pattern: returns the rest after the full match,
trying each successive `</head>` occurrence. -/
def dupTail : List Char → Option (List Char)
  | [] => none
  | c :: cs =>
    if "</head>".data.isPrefixOf (c :: cs) then
      (let l1 := ltrim ((c :: cs).drop 7)
       if "<body>".data.isPrefixOf l1 then
         (let l2 := ltrim (l1.drop 6)
          if "<!DOCTYPE html>".data.isPrefixOf l2 then some (l2.drop 15)
          else dupTail cs)
       else dupTail cs)
    else dupTail cs

/-- Try the `re.DOTALL` pattern
`<!DOCTYPE html>\s*<html[^>]*>\s*<head>.*?</head>\s*<body>\s*<!DOCTYPE html>`
at the current position; returns the rest after the match. -/
def matchDupAt (l : List Char) : Option (List Char) :=
  if "<!DOCTYPE html>".data.isPrefixOf l then
    (let l1 := ltrim (l.drop 15)
     if "<html".data.isPrefixOf l1 then
       match afterOpenTag (l1.drop 5) with
       | some l2 =>
         (let l3 := ltrim l2
          if "<head>".data.isPrefixOf l3 then dupTail (l3.drop 6)
          else none)
       | none => none
     else none)
  else none

def collapseDupAux : Nat → List Char → List Char
  | 0, l => l
  | fuel + 1, l =>
    match matchDupAt l with
    | some rest => "<!DOCTYPE html>".data ++ collapseDupAux fuel rest
    | none =>
      match l with
      | [] => []
      | c :: cs => c :: collapseDupAux fuel cs

/-- The duplicated-preamble `re.sub` (`ai_generator.py` line 69). -/
def collapseDup (l : List Char) : List Char := collapseDupAux l.length l

/-- Test for `re.sub(r'</body>\s*</html>\s*$', '', ...)`: does the end-anchored
pattern match at the current position? -/
def endBodyHtmlAt (l : List Char) : Bool :=
  if "</body>".data.isPrefixOf l then
    (let l1 := ltrim (l.drop 7)
     if "</html>".data.isPrefixOf l1 then (ltrim (l1.drop 7)).isEmpty
     else false)
  else false

def stripTrailingClose : List Char → List Char
  | [] => []
  | c :: cs => if endBodyHtmlAt (c :: cs) then [] else c :: stripTrailingClose cs

/-- Model of `clean_markdown_artifacts` (`ai_generator.py` lines 62-75). -/
def clean_markdown_artifacts (content : List Char) : List Char :=
  pyStrip (stripTrailingClose (collapseDup
    (removeFencePass "```".data (removeFencePass "```html".data content))))

/-! ### `ai_generator.py`: `process_blog_content` -/

/-- Source: `ai_generator.py` lines 119-125 (insertion order preserved). -/
def affiliate_links : List (List Char × List Char) :=
  [("\x7b\x7bAFF_LINK_1\x7d\x7d".data,
    "https://amazon.com/affiliate/product1?tag=yourtag".data),
   ("\x7b\x7bAFF_LINK_2\x7d\x7d".data,
    "https://amazon.com/affiliate/product2?tag=yourtag".data),
   ("\x7b\x7bAFF_LINK_3\x7d\x7d".data,
    "https://amazon.com/affiliate/product3?tag=yourtag".data),
   ("\x7b\x7bAFF_LINK_4\x7d\x7d".data,
    "https://bestbuy.com/affiliate/product4?tag=yourtag".data),
   ("\x7b\x7bAFF_LINK_5\x7d\x7d".data,
    "https://walmart.com/affiliate/product5?tag=yourtag".data)]

/-- The placeholder-replacement loop (`ai_generator.py` lines 128-129). -/
def substituteAffLinks (content : List Char) : List Char :=
  affiliate_links.foldl (fun c pl => replaceAll pl.1 pl.2 c) content

def htmlShellA : List Char :=
  "<!DOCTYPE html>\n<html lang=\"en\">\n<head>\n    <meta charset=\"UTF-8\">\n    <meta name=\"viewport\" content=\"width=device-width, initial-scale=1.0\">\n    <title>".data

def htmlShellB : List Char :=
  "</title>\n    <style>\n        body \x7b font-family: Arial, sans-serif; line-height: 1.6; max-width: 800px; margin: 0 auto; padding: 20px; \x7d\n        h1, h2, h3 \x7b color: #333; \x7d\n        a \x7b color: #007bff; text-decoration: none; \x7d\n        a:hover \x7b text-decoration: underline; \x7d\n        .faq \x7b margin-top: 30px; \x7d\n        .faq h3 \x7b margin-top: 20px; \x7d\n    </style>\n</head>\n<body>\n".data

def htmlShellC : List Char := "\n</body>\n</html>".data

/-- The wrapping f-string of `process_blog_content`
(`ai_generator.py` lines 135-153). -/
def htmlShell (title content : List Char) : List Char :=
  htmlShellA ++ title ++ htmlShellB ++ content ++ htmlShellC

/-- Model of `process_blog_content` (`ai_generator.py` lines 115-155). -/
def process_blog_content (content keyword : List Char) : List Char :=
  let content := substituteAffLinks content
  if !( "<!DOCTYPE html>".data.isPrefixOf (pyStrip content)) then
    (let t := extract_title_text content
     let title := if t.isEmpty then pyTitle keyword ++ " - Expert Guide".data else t
     htmlShell title content)
  else content

/-! ### `ai_generator.py`: derived metadata -/

/-- The stripped non-empty lines scanned by `generate_meta_description`
(`ai_generator.py` line 194). -/
def metaParagraphs (content : List Char) : List (List Char) :=
  ((splitNl (stripTags content)).map pyStrip).filter (fun p => !p.isEmpty)

/-- The first of the first 5 paragraphs that contains the keyword
case-insensitively and is longer than 50 characters. -/
def chooseParagraph (keyword content : List Char) : Option (List Char) :=
  ((metaParagraphs content).take 5).find?
    (fun p => containsSub (lowerStr keyword) (lowerStr p) && p.length > 50)

/-- Source: `ai_generator.py` lines 199-202: `description = paragraph[:155]`,
trimmed back to the last space with `'...'` appended when the paragraph
is longer than 155 characters. -/
def metaFromParagraph (p : List Char) : List Char :=
  if 155 < p.length then beforeLastSpace (p.take 155) ++ "...".data
  else p.take 155

/-- Model of `generate_meta_description` (`ai_generator.py` lines 188-205). -/
def generate_meta_description (keyword content : List Char) : List Char :=
  match chooseParagraph keyword content with
  | some p => metaFromParagraph p
  | none =>
    "Discover everything you need to know about ".data ++ keyword
      ++ ". Expert reviews, comparisons, and buying guides to help you make the best choice.".data

/-- Source: `ai_generator.py` line 216. -/
def generic_tags : List (List Char) :=
  ["review".data, "guide".data, "buying guide".data, "2024".data, "best".data]

/-- Model of `generate_tags` (`ai_generator.py` lines 207-219); `related` is
`seo_data.get('related_keywords', [])`. -/
def generate_tags (keyword : List Char) (related : List (List Char)) :
    List (List Char) :=
  let tags := keyword :: related.take 5
  let joined := lowerStr (List.intercalate " ".data tags)
  (tags ++ generic_tags.filter (fun t => !containsSub t joined)).take 10

/-- The count `len(re.sub(r'<[^>]+>', '', content).split())`. -/
def wordCount (content : List Char) : ℕ := (pySplitWs (stripTags content)).length

/-- Model of `calculate_reading_time` (`ai_generator.py` lines 221-230). -/
def calculate_reading_time (content : List Char) : List Char :=
  (toString (max 1 (pyRoundQ ((wordCount content : ℚ) / 225)))).data
    ++ " min read".data

/-! ### `ai_generator.py`: blog-post generation -/

structure BlogPost where
  title : List Char
  content : List Char
  word_count : ℕ
  meta_description : List Char
  tags : List (List Char)
  estimated_reading_time : List Char
deriving Repr, DecidableEq

def fallbackPiece0 : List Char :=
  "<!DOCTYPE html>\n<html lang=\"en\">\n<head>\n    <meta charset=\"UTF-8\">\n    <meta name=\"viewport\" content=\"width=device-width, initial-scale=1.0\">\n    <title>".data

def fallbackPiece1 : List Char :=
  "</title>\n    <style>\n        body \x7b font-family: Arial, sans-serif; line-height: 1.6; max-width: 800px; margin: 0 auto; padding: 20px; \x7d\n        h1, h2, h3 \x7b color: #333; \x7d\n        a \x7b color: #007bff; text-decoration: none; \x7d\n        a:hover \x7b text-decoration: underline; \x7d\n        .faq \x7b margin-top: 30px; \x7d\n        .faq h3 \x7b margin-top: 20px; \x7d\n    </style>\n</head>\n<body>\n    <h1>".data

def fallbackPiece2 : List Char :=
  "</h1>\n    \n    <p>Welcome to our comprehensive guide about <strong>".data

def fallbackPiece3 : List Char :=
  "</strong>. In this article, we'll cover everything you need to know to make an informed decision.</p>\n    \n    <h2>What Makes Great ".data

def fallbackPiece4 : List Char :=
  "?</h2>\n    <p>When looking for the best ".data

def fallbackPiece5 : List Char :=
  ", there are several key factors to consider:</p>\n    <ul>\n        <li>Quality and durability</li>\n        <li>Value for money</li>\n        <li>User reviews and ratings</li>\n        <li>Brand reputation</li>\n        <li>Warranty and support</li>\n    </ul>\n    \n    <h2>Top Recommendations</h2>\n    <p>Based on our research and testing, here are our top picks for ".data

def fallbackPiece6 : List Char :=
  ":</p>\n    \n    <h3>1. Premium Choice</h3>\n    <p>For those looking for the best quality, we recommend checking out <a href=\"https://amazon.com/affiliate/product1?tag=yourtag\" target=\"_blank\" rel=\"noopener\">this premium option</a>.</p>\n    \n    <h3>2. Best Value</h3>\n    <p>If you're looking for great value, <a href=\"https://amazon.com/affiliate/product2?tag=yourtag\" target=\"_blank\" rel=\"noopener\">this budget-friendly choice</a> offers excellent features at an affordable price.</p>\n    \n    <h2>Buying Guide</h2>\n    <p>Here's what to look for when shopping for ".data

def fallbackPiece7 : List Char :=
  ":</p>\n    <ol>\n        <li>Set your budget range</li>\n        <li>Read customer reviews</li>\n        <li>Compare features</li>\n        <li>Check warranty terms</li>\n        <li>Consider future needs</li>\n    </ol>\n    \n    <div class=\"faq\">\n        <h2>Frequently Asked Questions</h2>\n        \n        <h3>What's the best ".data

def fallbackPiece8 : List Char :=
  " for beginners?</h3>\n        <p>For beginners, we recommend starting with <a href=\"https://amazon.com/affiliate/product3?tag=yourtag\" target=\"_blank\" rel=\"noopener\">this user-friendly option</a> that offers great features without overwhelming complexity.</p>\n        \n        <h3>How much should I spend on ".data

def fallbackPiece9 : List Char :=
  "?</h3>\n        <p>The price range varies widely, but you can find quality options starting from budget-friendly to premium levels. Consider your specific needs and budget.</p>\n        \n        <h3>Are there any special features I should look for?</h3>\n        <p>Look for features that match your specific use case, such as durability, ease of use, and compatibility with your existing setup.</p>\n    </div>\n    \n    <h2>Conclusion</h2>\n    <p>Choosing the right ".data

def fallbackPiece10 : List Char :=
  " doesn't have to be complicated. By considering the factors we've outlined and checking out our recommended options, you'll be well on your way to making the perfect choice for your needs.</p>\n    \n    <p><em>Last updated: ".data

def fallbackPiece11 : List Char := "</em></p>\n</body>\n</html>".data

/-- The fallback f-string (`ai_generator.py` lines 237-304); `now` is
`datetime.now().strftime('%B %Y')`. -/
def fallbackContent (keyword title now : List Char) : List Char :=
  fallbackPiece0 ++ title ++ fallbackPiece1 ++ title ++ fallbackPiece2
    ++ keyword ++ fallbackPiece3 ++ pyTitle keyword ++ fallbackPiece4
    ++ keyword ++ fallbackPiece5 ++ keyword ++ fallbackPiece6 ++ keyword
    ++ fallbackPiece7 ++ keyword ++ fallbackPiece8 ++ keyword
    ++ fallbackPiece9 ++ keyword ++ fallbackPiece10 ++ now ++ fallbackPiece11

/-- Model of `generate_fallback_content` (`ai_generator.py` lines 232-313). -/
def generate_fallback_content (keyword : List Char) (seo : SeoData)
    (now : List Char) : BlogPost :=
  let title := "The Ultimate Guide to ".data ++ pyTitle keyword
    ++ ": Everything You Need to Know".data
  let content := fallbackContent keyword title now
  { title := title
    content := content
    word_count := wordCount content
    meta_description := "Complete guide to ".data ++ keyword
      ++ ". Expert recommendations, buying tips, and reviews to help you choose the best ".data
      ++ keyword ++ " for your needs.".data
    tags := generate_tags keyword seo.related_keywords
    estimated_reading_time := calculate_reading_time content }

/-- Model of `generate_blog_post` (`ai_generator.py` lines 11-60).  The model
credential is `apiKey` (`None` or the empty string are both falsy in
`if not openai.api_key`); the external call's outcome is `apiResponse`
(`Except.error` models any raised exception, whose handler also falls
back); `now` is the fallback's date stamp. -/
def generate_blog_post (keyword : List Char) (seo : SeoData)
    (apiKey : Option (List Char)) (apiResponse : Except (List Char) (List Char))
    (now : List Char) : BlogPost :=
  if (apiKey.getD []).isEmpty then generate_fallback_content keyword seo now
  else
    match apiResponse with
    | .error _ => generate_fallback_content keyword seo now
    | .ok rawResponse =>
      let raw := clean_markdown_artifacts (pyStrip rawResponse)
      let processed := process_blog_content raw keyword
      { title := extract_title processed
        content := processed
        word_count := wordCount processed
        meta_description := generate_meta_description keyword processed
        tags := generate_tags keyword seo.related_keywords
        estimated_reading_time := calculate_reading_time processed }

/-! ### Auxiliary predicates used in theorem statements -/

/-- Does a case-insensitive `<h1` open-tag start at the current position? -/
def isH1OpenAt : List Char → Bool
  | a :: b :: c :: _ => a == '<' && b.toLower == 'h' && c == '1'
  | _ => false

/-- Does the text contain a case-insensitive `<h1` anywhere? -/
def hasH1Open : List Char → Bool
  | [] => false
  | c :: cs => isH1OpenAt (c :: cs) || hasH1Open cs

/-! ### Concrete inputs used by witnesses and counterexamples -/

/-- A sample `SEOData` record (its values are irrelevant to the claims
that use it). -/
def seoSample : SeoData :=
  { keyword := "desk lamp".data
    search_volume := 10000
    keyword_difficulty := 45
    avg_cpc := 2
    related_keywords := []
    top_ranking_pages := []
    search_trends := []
    competition_level := "Medium".data
    suggested_bid := 2 }

/-- A 165-character paragraph containing keyword `"k"` whose last space
inside the first 155 characters sits at index 154. -/
def c1CexContent : List Char :=
  "k ".data ++ List.replicate 152 'a' ++ " ".data ++ List.replicate 10 'b'

/-- A 160-character paragraph containing keyword `"lamp"`. -/
def c1WitContent : List Char := "lamp ".data ++ List.replicate 155 'a'

/-- Draws for keyword `"buy"` (one word, so the high band) with a
commercial volume factor of `0.8`, the bottom of the requested range. -/
def drawsBuy : SeoDraws :=
  { bandVolume := 5000
    bandDifficulty := 60
    bandCpc := 3
    commCpcFactor := 2
    commVolFactor := 4/5
    infoCpcFactor := 1/2
    infoVolFactor := 3/2
    sampleMods := ["best".data, "top".data, "review".data, "guide".data, "cheap".data]
    pagePicks := [5, 6, 7, 8, 9]
    pageDAs := [40, 50, 60, 70, 80]
    trendBase := 70
    trendVars := [0, 0, 0, 0, 0, 0, 0, 0, 0, 0, 0, 0]
    bidFactor := 1 }

/-- Valid draws for the one-word keyword `"deal"`. -/
def drawsDeal : SeoDraws :=
  { bandVolume := 20000
    bandDifficulty := 80
    bandCpc := 4
    commCpcFactor := 3/2
    commVolFactor := 11/10
    infoCpcFactor := 2/5
    infoVolFactor := 13/10
    sampleMods := ["top".data, "cheap".data, "2024".data, "2025".data, "vs".data]
    pagePicks := [15, 5, 10, 11, 12]
    pageDAs := [90, 40, 55, 65, 75]
    trendBase := 100
    trendVars := [-20, 30, 0, 1, 2, 3, 4, 5, 6, 7, 8, 9]
    bidFactor := 6/5 }

/-- Valid draws for the four-word keyword `"zzz qqq rrr sss"`. -/
def drawsLongTail : SeoDraws :=
  { bandVolume := 500
    bandDifficulty := 20
    bandCpc := 1
    commCpcFactor := 2
    commVolFactor := 1
    infoCpcFactor := 1/2
    infoVolFactor := 3/2
    sampleMods := ["best".data, "top".data, "review".data, "guide".data, "cheap".data]
    pagePicks := [5, 6, 7, 8, 9]
    pageDAs := [40, 50, 60, 70, 80]
    trendBase := 85
    trendVars := [0, 0, 0, 0, 0, 0, 0, 0, 0, 0, 0, 0]
    bidFactor := 1 }

/-- Valid draws for the keyword `"best guide"`, which matches both the
commercial list (`best`) and the informational list (`guide`). -/
def drawsBoth : SeoDraws :=
  { bandVolume := 10000
    bandDifficulty := 70
    bandCpc := 5
    commCpcFactor := 2
    commVolFactor := 1
    infoCpcFactor := 1/2
    infoVolFactor := 3/2
    sampleMods := ["top".data, "cheap".data, "discount".data, "buy".data, "price".data]
    pagePicks := [5, 6, 7, 8, 9]
    pageDAs := [40, 50, 60, 70, 80]
    trendBase := 70
    trendVars := [0, 0, 0, 0, 0, 0, 0, 0, 0, 0, 0, 0]
    bidFactor := 1 }

/-- Content that already starts with a DOCTYPE (after whitespace) and
contains no affiliate placeholder. -/
def c10WitContent : List Char := "  <!DOCTYPE html><p>hello world</p> ".data

/-- Content that starts with a DOCTYPE but contains an affiliate
placeholder. -/
def c10CexContent : List Char :=
  "<!DOCTYPE html><p>\x7b\x7bAFF_LINK_1\x7d\x7d</p>".data

/-- A 450-word text. -/
def words450 : List Char := List.intercalate " ".data (List.replicate 450 "w".data)

/-- A 10-word text. -/
def words10 : List Char := List.intercalate " ".data (List.replicate 10 "w".data)

end BlogGen

namespace BlogGen

/-! ### Helper lemmas -/

theorem containsSub_nil_left (l : List Char) : containsSub [] l = true := by
  cases l <;> simp [containsSub, List.isPrefixOf]

theorem containsSub_append_left {pat a : List Char} (b : List Char)
    (h : containsSub pat a = true) : containsSub pat (a ++ b) = true := by
  induction a with
  | nil =>
    have hp : pat = [] := by simpa [containsSub] using h
    subst hp
    exact containsSub_nil_left b
  | cons c cs ih =>
    simp only [containsSub, Bool.or_eq_true] at h
    rcases h with h | h
    · have h1 : pat <+: (c :: cs) := by simpa using h
      have h2 : pat <+: (c :: cs) ++ b := h1.trans (List.prefix_append _ _)
      simp only [List.cons_append, containsSub, Bool.or_eq_true]
      exact Or.inl (by simpa using h2)
    · simp only [List.cons_append, containsSub, Bool.or_eq_true]
      exact Or.inr (ih h)

theorem rtrim_prefix_self (l : List Char) : rtrim l <+: l := by
  have hsu : l.reverse.dropWhile pyIsSpace <:+ l.reverse :=
    List.dropWhile_suffix pyIsSpace
  have h := List.reverse_prefix.2 hsu
  rw [List.reverse_reverse] at h
  exact h

theorem isPrefixOf_ltrim_of_pyStrip {p l : List Char}
    (h : p.isPrefixOf (pyStrip l) = true) : p.isPrefixOf (ltrim l) = true := by
  rw [ List.isPrefixOf_iff_prefix] at h ⊢
  exact h.trans (rtrim_prefix_self (ltrim l))

theorem ltrim_of_head {c : Char} (h : pyIsSpace c = false) (l : List Char) :
    ltrim (c :: l) = c :: l := by
  simp [ltrim, h]

theorem beforeLastSpace_length_le (l : List Char) :
    (beforeLastSpace l).length ≤ l.length := by
  unfold beforeLastSpace
  cases h : l.reverse.dropWhile (fun c => !(c = ' ')) with
  | nil => exact le_rfl
  | cons x before =>
    have hs : (x :: before) <:+ l.reverse := h ▸ List.dropWhile_suffix _
    have hl := hs.length_le
    simp only [List.length_cons, List.length_reverse] at hl
    simp only [List.length_reverse]
    omega

/-! ### Claim C6 -/

/-- C6: `competition_level` is a pure function of the difficulty score:
below 30 maps to "Low", `[30, 60)` to "Medium", 60 and above to "High";
in particular 29 maps to "Low", 30 to "Medium", 59 to "Medium" and 60 to
"High". -/
theorem c6_competition_level_bands :
    ∀ d : ℤ,
      (d < 30 → get_competition_level d = "Low".data) ∧
      (30 ≤ d → d < 60 → get_competition_level d = "Medium".data) ∧
      (60 ≤ d → get_competition_level d = "High".data) ∧
      get_competition_level 29 = "Low".data ∧
      get_competition_level 30 = "Medium".data ∧
      get_competition_level 59 = "Medium".data ∧
      get_competition_level 60 = "High".data := by
  intro d
  refine ⟨?_, ?_, ?_, by decide, by decide, by decide, by decide⟩ <;>
    · intros
      unfold get_competition_level
      split_ifs <;> first | rfl | omega

/-- C6 witness: the band map evaluated at 29, 45 and 80 through
`c6_competition_level_bands`. -/
theorem c6_competition_level_bands_witness :
    get_competition_level 29 = "Low".data ∧
    get_competition_level 45 = "Medium".data ∧
    get_competition_level 80 = "High".data :=
  ⟨(c6_competition_level_bands 29).1 (by decide),
   (c6_competition_level_bands 45).2.1 (by decide) (by decide),
   (c6_competition_level_bands 80).2.2.1 (by decide)⟩

theorem ratFloor_eq_floor (q : ℚ) : ratFloor q = ⌊q⌋ := by
  unfold ratFloor
  exact Rat.floor_def.symm

theorem pyRoundQ_eq_round {q : ℚ} (h : Int.fract q ≠ 1/2) :
    pyRoundQ q = round q := by
  have hfr : q - (⌊q⌋ : ℚ) = Int.fract q := Int.self_sub_floor q
  unfold pyRoundQ
  rw [ratFloor_eq_floor, hfr, round_eq]
  rcases lt_trichotomy (Int.fract q) (1/2) with hlt | heq | hgt
  · rw [if_pos hlt]
    have h1 : q - (⌊q⌋ : ℚ) < 1/2 := by rw [hfr]; exact hlt
    symm
    rw [Int.floor_eq_iff]
    have h2 : (⌊q⌋ : ℚ) ≤ q := Int.floor_le q
    constructor
    · linarith
    · linarith
  · exact absurd heq h
  · have hle : ¬ Int.fract q < 1/2 := by push_neg; linarith
    rw [if_neg hle, if_pos hgt]
    have h1 : 1/2 < q - (⌊q⌋ : ℚ) := by rw [hfr]; exact hgt
    have h2 : q < (⌊q⌋ : ℚ) + 1 := Int.lt_floor_add_one q
    symm
    rw [Int.floor_eq_iff]
    constructor
    · push_cast
      linarith
    · push_cast
      linarith

theorem fract_wc_div_225_ne_half (wc : ℕ) :
    Int.fract ((wc : ℚ) / 225) ≠ 1/2 := by
  intro h
  have h1 : (wc : ℚ)/225 - (⌊(wc : ℚ)/225⌋ : ℚ) = 1/2 := by
    rw [Int.self_sub_floor, h]
  have h2 : (2 * wc : ℚ) = 450 * (⌊(wc : ℚ)/225⌋ : ℚ) + 225 := by
    field_simp at h1
    linarith
  have h3 : (2 * wc : ℤ) = 450 * ⌊(wc : ℚ)/225⌋ + 225 := by exact_mod_cast h2
  omega

/-! ### Claim C8 -/

/-- C8: the estimated reading time is `max(1, round(word_count / 225))`
minutes formatted as `"N min read"`, where `word_count` counts the
whitespace-separated tokens of the tag-stripped content (`round` being
exact nearest-integer rounding: ties never arise for `wc/225`); a
450-word text yields "2 min read" and a 10-word text "1 min read". -/
theorem c8_reading_time_formula :
    (∀ content : List Char,
        calculate_reading_time content
          = (toString (max 1 (round ((wordCount content : ℚ) / 225)))).data
              ++ " min read".data) ∧
    wordCount words450 = 450 ∧
    calculate_reading_time words450 = "2 min read".data ∧
    wordCount words10 = 10 ∧
    calculate_reading_time words10 = "1 min read".data := by
  refine ⟨fun content => ?_, by decide, by decide, by decide, by decide⟩
  unfold calculate_reading_time
  rw [pyRoundQ_eq_round (fract_wc_div_225_ne_half (wordCount content))]

/-! ### Claim C1 -/

/-- C1 counterexample: for keyword `"k"` and a 165-character paragraph
whose last space within its first 155 characters is at index 154, the
meta description is 157 characters long (154 kept characters plus the
appended `"..."`), violating the claimed 155-character bound. -/
theorem c1_meta_description_over_155 :
    (generate_meta_description "k".data c1CexContent).length = 157 ∧
    (generate_meta_description "k".data c1CexContent).drop 154 = "...".data := by
  exact ⟨by decide, by decide⟩

/-- C1 (amended): when one of the first five stripped non-empty lines
contains the keyword (case-insensitively) and is longer than 50
characters, the meta description is that paragraph itself when it is at
most 155 characters, and otherwise its first 155 characters trimmed
back to the last space (when one exists) with `"..."` appended — hence
at most 158 (not 155) characters; when no paragraph qualifies, the
fixed generic sentence parameterized by the keyword is returned. -/
theorem c1_meta_description_truncation :
    ∀ (keyword content : List Char),
      (∀ p, chooseParagraph keyword content = some p →
        (generate_meta_description keyword content).length ≤ 158 ∧
        (p.length ≤ 155 → generate_meta_description keyword content = p) ∧
        (155 < p.length →
          generate_meta_description keyword content
            = beforeLastSpace (p.take 155) ++ "...".data)) ∧
      (chooseParagraph keyword content = none →
        generate_meta_description keyword content
          = "Discover everything you need to know about ".data ++ keyword
            ++ ". Expert reviews, comparisons, and buying guides to help you make the best choice.".data) := by
  intro keyword content
  constructor
  · intro p hp
    have hg : generate_meta_description keyword content = metaFromParagraph p := by
      unfold generate_meta_description
      rw [hp]
    rw [hg]
    unfold metaFromParagraph
    by_cases h : 155 < p.length
    · rw [if_pos h]
      refine ⟨?_, fun hle => absurd h (by omega), fun _ => rfl⟩
      have h1 := beforeLastSpace_length_le (p.take 155)
      have h2 : (p.take 155).length ≤ 155 := by
        rw [List.length_take]
        omega
      have h3 : ("...".data).length = 3 := rfl
      rw [List.length_append]
      omega
    · rw [if_neg h]
      have ht : p.take 155 = p := List.take_of_length_le (by omega)
      rw [ht]
      exact ⟨by omega, fun _ => rfl, fun hgt => absurd hgt h⟩
  · intro hn
    unfold generate_meta_description
    rw [hn]

/-- C1 witness: a 160-character paragraph containing `"lamp"` is
truncated to the word boundary with `"..."` appended and stays within
158 characters. -/
theorem c1_meta_description_truncation_witness :
    (generate_meta_description "lamp".data c1WitContent).length ≤ 158 ∧
    generate_meta_description "lamp".data c1WitContent
      = beforeLastSpace (c1WitContent.take 155) ++ "...".data := by
  have h := (c1_meta_description_truncation "lamp".data c1WitContent).1
    c1WitContent (by decide)
  exact ⟨h.1, h.2.2 (by decide)⟩

/-! ### Claim C2 -/

/-- C2 counterexample: for the commercial keyword `"buy"` with in-range
draws (volume factor `0.8 ∈ [0.8, 1.2]`), the commercial adjustment
lowers `search_volume` from 5000 to 4000, refuting "search_volume is
never decreased by the commercial adjustment". -/
theorem c2_commercial_lowers_volume :
    drawsBuy.Valid "buy".data ∧
    commercialMatch (lowerStr "buy".data) = true ∧
    (generate_mock_seo_data "buy".data drawsBuy).search_volume = 4000 ∧
    (4000 : ℤ) < drawsBuy.bandVolume := by
  refine ⟨by decide, by decide, by decide, by decide⟩

/-- C2 (amended): for every commercial-matching keyword and in-range
draws, the generator multiplies `avg_cpc` by the drawn factor in
`[1.5, 2.5]` and multiplies `search_volume` by the drawn factor in
`[0.8, 1.2]` (truncated to int), so the volume may decrease by up to
20%; `keyword_difficulty` is unchanged. -/
theorem c2_commercial_adjustment :
    ∀ (keyword : List Char) (d : SeoDraws), d.Valid keyword →
      commercialMatch (lowerStr keyword) = true →
      (generate_mock_seo_data keyword d).avg_cpc
          = round2 (round2 d.bandCpc * d.commCpcFactor) ∧
      (3/2 : ℚ) ≤ d.commCpcFactor ∧ d.commCpcFactor ≤ 5/2 ∧
      (generate_mock_seo_data keyword d).search_volume
          = pyInt ((d.bandVolume : ℚ) * d.commVolFactor) ∧
      (4/5 : ℚ) ≤ d.commVolFactor ∧ d.commVolFactor ≤ 6/5 ∧
      (generate_mock_seo_data keyword d).keyword_difficulty = d.bandDifficulty := by
  intro keyword d hv hc
  obtain ⟨-, h1, h2, h3, h4, -⟩ := hv
  refine ⟨?_, h1, h2, ?_, h3, h4, ?_⟩ <;> simp [generate_mock_seo_data, hc]

/-- C2 witness: the amended statement applied to the keyword `"deal"`
with concrete in-range draws. -/
theorem c2_commercial_adjustment_witness :
    (generate_mock_seo_data "deal".data drawsDeal).avg_cpc
        = round2 (round2 drawsDeal.bandCpc * drawsDeal.commCpcFactor) ∧
    (generate_mock_seo_data "deal".data drawsDeal).search_volume
        = pyInt ((drawsDeal.bandVolume : ℚ) * drawsDeal.commVolFactor) ∧
    (generate_mock_seo_data "deal".data drawsDeal).keyword_difficulty
        = drawsDeal.bandDifficulty := by
  have h := c2_commercial_adjustment "deal".data drawsDeal (by decide) (by decide)
  exact ⟨h.1, h.2.2.2.1, h.2.2.2.2.2.2⟩

/-! ### Claim C5 -/

/-- C5: absent the commercial/informational adjustment (the keyword
matches neither list), the band selected by the keyword's word count
bounds the generated metrics: `≥ 4` words gives volume in `[100, 2000]`
and difficulty in `[15, 45]`; exactly 3 words gives `[1000, 8000]` and
`[35, 65]`; `≤ 2` words gives `[5000, 50000]` and `[60, 95]`. -/
theorem c5_band_bounds :
    ∀ (keyword : List Char) (d : SeoDraws), d.Valid keyword →
      commercialMatch (lowerStr keyword) = false →
      informationalMatch (lowerStr keyword) = false →
      ((pySplitWs keyword).length ≥ 4 →
        100 ≤ (generate_mock_seo_data keyword d).search_volume ∧
        (generate_mock_seo_data keyword d).search_volume ≤ 2000 ∧
        15 ≤ (generate_mock_seo_data keyword d).keyword_difficulty ∧
        (generate_mock_seo_data keyword d).keyword_difficulty ≤ 45) ∧
      ((pySplitWs keyword).length = 3 →
        1000 ≤ (generate_mock_seo_data keyword d).search_volume ∧
        (generate_mock_seo_data keyword d).search_volume ≤ 8000 ∧
        35 ≤ (generate_mock_seo_data keyword d).keyword_difficulty ∧
        (generate_mock_seo_data keyword d).keyword_difficulty ≤ 65) ∧
      ((pySplitWs keyword).length ≤ 2 →
        5000 ≤ (generate_mock_seo_data keyword d).search_volume ∧
        (generate_mock_seo_data keyword d).search_volume ≤ 50000 ∧
        60 ≤ (generate_mock_seo_data keyword d).keyword_difficulty ∧
        (generate_mock_seo_data keyword d).keyword_difficulty ≤ 95) := by
  intro keyword d hv hc hi
  have hs : (generate_mock_seo_data keyword d).search_volume = (d.bandVolume : ℤ) := by
    simp [generate_mock_seo_data, hc, hi]
  have hk : (generate_mock_seo_data keyword d).keyword_difficulty = d.bandDifficulty := by
    simp [generate_mock_seo_data, hc, hi]
  have hband := hv.1
  refine ⟨fun h4 => ?_, fun h3 => ?_, fun h2 => ?_⟩
  · rw [if_pos h4] at hband
    obtain ⟨b1, b2, b3, b4, -⟩ := hband
    rw [hs, hk]
    refine ⟨by exact_mod_cast b1, by exact_mod_cast b2, b3, b4⟩
  · rw [if_neg (by omega), if_pos h3] at hband
    obtain ⟨b1, b2, b3, b4, -⟩ := hband
    rw [hs, hk]
    refine ⟨by exact_mod_cast b1, by exact_mod_cast b2, b3, b4⟩
  · rw [if_neg (by omega), if_neg (by omega)] at hband
    obtain ⟨b1, b2, b3, b4, -⟩ := hband
    rw [hs, hk]
    refine ⟨by exact_mod_cast b1, by exact_mod_cast b2, b3, b4⟩

/-- C5 witness: the long-tail band applied to the four-word keyword
`"zzz qqq rrr sss"` with concrete in-range draws. -/
theorem c5_band_bounds_witness :
    100 ≤ (generate_mock_seo_data "zzz qqq rrr sss".data drawsLongTail).search_volume ∧
    (generate_mock_seo_data "zzz qqq rrr sss".data drawsLongTail).search_volume ≤ 2000 ∧
    15 ≤ (generate_mock_seo_data "zzz qqq rrr sss".data drawsLongTail).keyword_difficulty ∧
    (generate_mock_seo_data "zzz qqq rrr sss".data drawsLongTail).keyword_difficulty ≤ 45 :=
  (c5_band_bounds "zzz qqq rrr sss".data drawsLongTail (by decide) (by decide)
    (by decide)).1 (by decide)

/-! ### Claim C9 -/

/-- C9: the keyword-type adjustment is first-match-wins: a
commercial-matching keyword gets the commercial factors applied (and the
result does not depend on the informational factors at all), while the
informational adjustment (cpc factor in `[0.3, 0.8]`, volume factor in
`[1.2, 1.8]`) is applied exactly when the keyword matches the
informational list but not the commercial one. -/
theorem c9_first_match_wins :
    ∀ (keyword : List Char) (d : SeoDraws), d.Valid keyword →
      (commercialMatch (lowerStr keyword) = true →
        (generate_mock_seo_data keyword d).avg_cpc
            = round2 (round2 d.bandCpc * d.commCpcFactor) ∧
        (generate_mock_seo_data keyword d).search_volume
            = pyInt ((d.bandVolume : ℚ) * d.commVolFactor) ∧
        ∀ x y : ℚ,
          generate_mock_seo_data keyword
              { d with infoCpcFactor := x, infoVolFactor := y }
            = generate_mock_seo_data keyword d) ∧
      (commercialMatch (lowerStr keyword) = false →
        informationalMatch (lowerStr keyword) = true →
        (generate_mock_seo_data keyword d).avg_cpc
            = round2 (round2 d.bandCpc * d.infoCpcFactor) ∧
        (3/10 : ℚ) ≤ d.infoCpcFactor ∧ d.infoCpcFactor ≤ 4/5 ∧
        (generate_mock_seo_data keyword d).search_volume
            = pyInt ((d.bandVolume : ℚ) * d.infoVolFactor) ∧
        (6/5 : ℚ) ≤ d.infoVolFactor ∧ d.infoVolFactor ≤ 9/5) := by
  intro keyword d hv
  obtain ⟨-, -, -, -, -, h5, h6, h7, h8, -⟩ := hv
  constructor
  · intro hc
    refine ⟨by simp [generate_mock_seo_data, hc], by simp [generate_mock_seo_data, hc],
      fun x y => ?_⟩
    simp [generate_mock_seo_data, hc]
  · intro hc hi
    exact ⟨by simp [generate_mock_seo_data, hc, hi], h5, h6,
      by simp [generate_mock_seo_data, hc, hi], h7, h8⟩

/-- C9 witness: `"best guide"` matches both lists; the commercial
branch is applied via `c9_first_match_wins` and the informational
factors are irrelevant. -/
theorem c9_first_match_wins_witness :
    informationalMatch (lowerStr "best guide".data) = true ∧
    (generate_mock_seo_data "best guide".data drawsBoth).avg_cpc
        = round2 (round2 drawsBoth.bandCpc * drawsBoth.commCpcFactor) ∧
    generate_mock_seo_data "best guide".data
        { drawsBoth with infoCpcFactor := 1/3, infoVolFactor := 7/5 }
      = generate_mock_seo_data "best guide".data drawsBoth := by
  have h := (c9_first_match_wins "best guide".data drawsBoth (by decide)).1 (by decide)
  exact ⟨by decide, h.1, h.2.2 (1/3) (7/5)⟩

theorem matchH1At_eq_none {l : List Char} (h : isH1OpenAt l = false) :
    matchH1At l = none := by
  cases l with
  | nil => rfl
  | cons a t =>
    cases t with
    | nil => rfl
    | cons b t2 =>
      cases t2 with
      | nil => rfl
      | cons c r =>
        simp only [isH1OpenAt] at h
        simp [matchH1At, h]

theorem searchH1_append (pre r : List Char) (h : hasH1Open pre = false)
    (hr : ∀ x xs, r = x :: xs → x.toLower ≠ 'h' ∧ x ≠ '1') :
    searchH1 (pre ++ r) = searchH1 r := by
  induction pre with
  | nil => rfl
  | cons c cs ih =>
    have hc : (isH1OpenAt (c :: cs) || hasH1Open cs) = false := h
    rw [Bool.or_eq_false_iff] at hc
    obtain ⟨h0, htail⟩ := hc
    have hnone : matchH1At (c :: (cs ++ r)) = none := by
      apply matchH1At_eq_none
      cases cs with
      | nil =>
        cases hx : r with
        | nil => rfl
        | cons x xs =>
          cases xs with
          | nil => rfl
          | cons y ys =>
            have hne := hr x (y :: ys) hx
            simp [isH1OpenAt, hne.1]
      | cons b bs =>
        cases bs with
        | nil =>
          cases hx : r with
          | nil => rfl
          | cons x xs =>
            have hne := hr x xs hx
            simp [isH1OpenAt, hne.2]
        | cons b2 bs2 => exact h0
    rw [List.cons_append]
    simp only [searchH1, hnone]
    exact ih htail

theorem searchH1_at_foo (post : List Char) :
    searchH1 ("<h1>Foo</h1>".data ++ post) = some "Foo".data := rfl

/-! ### Claim C7 -/

/-- C7 counterexample: HTML containing `<h1>Foo</h1>` preceded by
another `<h1>` element: extraction returns the first `<h1>` body
(`"Bar"`), not `"Foo"`. -/
theorem c7_earlier_h1_wins :
    containsSub "<h1>Foo</h1>".data "<h1>Bar</h1><h1>Foo</h1>".data = true ∧
    extract_title "<h1>Bar</h1><h1>Foo</h1>".data = "Bar".data ∧
    "Bar".data ≠ "Foo".data := by
  exact ⟨by decide, by decide, by decide⟩

/-- C7 (amended): title extraction tries, in order, the first `<h1>`,
then the first heading of any level, then `<title>`, then the first
tag-stripped line longer than 10 characters (truncated to 100 characters
plus `"..."` when longer), and otherwise returns the literal
`"Generated Blog Post"`; given HTML containing `<h1>Foo</h1>` with no
case-insensitive occurrence of `"<h1"` before it, it returns exactly
`"Foo"` regardless of the surrounding content. -/
theorem c7_title_extraction :
    (∀ pre post : List Char, hasH1Open pre = false →
        extract_title (pre ++ "<h1>Foo</h1>".data ++ post) = "Foo".data) ∧
    extract_title "<h2>Sub</h2><h1>Main</h1>".data = "Main".data ∧
    extract_title "<h2>Sub</h2><title>T</title>".data = "Sub".data ∧
    extract_title "plain text only here\n<title>The Title</title>".data
      = "The Title".data ∧
    extract_title "tiny\nA sufficiently long plain line".data
      = "A sufficiently long plain line".data ∧
    extract_title ("ab\n".data ++ List.replicate 120 'z')
      = List.replicate 100 'z' ++ "...".data ∧
    extract_title "hi".data = "Generated Blog Post".data := by
  refine ⟨?_, by decide, by decide, by decide, by decide, by decide, by decide⟩
  intro pre post h
  have h1 : pre ++ "<h1>Foo</h1>".data ++ post
      = pre ++ ("<h1>Foo</h1>".data ++ post) := by
    rw [List.append_assoc]
  have h2 : searchH1 (pre ++ ("<h1>Foo</h1>".data ++ post)) = some "Foo".data := by
    rw [searchH1_append pre _ h ?_]
    · exact searchH1_at_foo post
    · intro x xs hx
      have hhead : ('<' : Char) = x := by
        have := congrArg List.head? hx
        simpa using this
      subst hhead
      exact ⟨by decide, by decide⟩
  unfold extract_title
  rw [h1, h2]
  rfl

/-- C7 witness: the amended extraction applied with a concrete
`<h1>`-free preamble and a concrete tail. -/
theorem c7_title_extraction_witness :
    extract_title ("<p>Intro paragraph</p>\n".data ++ "<h1>Foo</h1>".data
        ++ "<p>More</p>".data) = "Foo".data :=
  c7_title_extraction.1 "<p>Intro paragraph</p>\n".data "<p>More</p>".data
    (by decide)

theorem replaceAllAux_of_not_contains (pat rep : List Char) :
    ∀ (fuel : Nat) (l : List Char), containsSub pat l = false →
      replaceAllAux pat rep fuel l = l := by
  intro fuel
  induction fuel with
  | zero => intro l _; rfl
  | succ n ih =>
    intro l h
    cases l with
    | nil =>
      have hp : pat.isEmpty = false := by simpa [containsSub] using h
      cases pat with
      | nil => simp at hp
      | cons p ps => simp [replaceAllAux, List.isPrefixOf]
    | cons c cs =>
      have h' : (pat.isPrefixOf (c :: cs) || containsSub pat cs) = false := by
        simpa [containsSub] using h
      rw [Bool.or_eq_false_iff] at h'
      obtain ⟨h1, h2⟩ := h'
      simp [replaceAllAux, h1, ih cs h2]

theorem replaceAll_of_not_contains (pat rep l : List Char)
    (h : containsSub pat l = false) : replaceAll pat rep l = l :=
  replaceAllAux_of_not_contains pat rep l.length l h

theorem foldl_replaceAll_id (pairs : List (List Char × List Char))
    (content : List Char)
    (h : ∀ pl ∈ pairs, containsSub pl.1 content = false) :
    pairs.foldl (fun c pl => replaceAll pl.1 pl.2 c) content = content := by
  induction pairs with
  | nil => rfl
  | cons p ps ih =>
    simp only [List.foldl_cons]
    rw [replaceAll_of_not_contains _ _ _ (h p (by simp))]
    exact ih (fun q hq => h q (by simp [hq]))

theorem doctype_prefixOf_ltrim_htmlShell (t c : List Char) :
    "<!DOCTYPE html>".data.isPrefixOf (ltrim (htmlShell t c)) = true := by
  have hA : htmlShellA = "<!DOCTYPE html>".data
      ++ "\n<html lang=\"en\">\n<head>\n    <meta charset=\"UTF-8\">\n    <meta name=\"viewport\" content=\"width=device-width, initial-scale=1.0\">\n    <title>".data := by
    decide
  have h1 : htmlShell t c = "<!DOCTYPE html>".data
      ++ ("\n<html lang=\"en\">\n<head>\n    <meta charset=\"UTF-8\">\n    <meta name=\"viewport\" content=\"width=device-width, initial-scale=1.0\">\n    <title>".data
        ++ t ++ htmlShellB ++ c ++ htmlShellC) := by
    simp [htmlShell, hA, List.append_assoc]
  have h2 : ∀ y : List Char, "<!DOCTYPE html>".data ++ y
      = '<' :: ("!DOCTYPE html>".data ++ y) := fun _ => rfl
  rw [h1, h2, ltrim_of_head (show pyIsSpace '<' = false by decide), ← h2]
  rw [ List.isPrefixOf_iff_prefix]
  exact List.prefix_append _ _

/-! ### Claim C10 -/

/-- C10 counterexample: content that already starts with a DOCTYPE but
contains an affiliate placeholder is not returned unchanged — the
placeholder substitution happens before the DOCTYPE check. -/
theorem c10_not_unchanged :
    "<!DOCTYPE html>".data.isPrefixOf (pyStrip c10CexContent) = true ∧
    process_blog_content c10CexContent "lamp".data ≠ c10CexContent := by
  exact ⟨by decide, by decide⟩

/-- C10 (amended): the output of `process_blog_content` always begins,
after stripping leading whitespace, with `<!DOCTYPE html>`; content
whose affiliate-substituted form starts (modulo surrounding whitespace)
with a DOCTYPE is returned with only the placeholders substituted — so
it is returned unchanged exactly when it contains none of the five
placeholders — and any other content is wrapped in the fixed HTML shell
that begins with the declaration. -/
theorem c10_doctype_invariant :
    ∀ (content keyword : List Char),
      "<!DOCTYPE html>".data.isPrefixOf
          (ltrim (process_blog_content content keyword)) = true ∧
      ("<!DOCTYPE html>".data.isPrefixOf
          (pyStrip (substituteAffLinks content)) = true →
        process_blog_content content keyword = substituteAffLinks content) ∧
      ((∀ pl ∈ affiliate_links, containsSub pl.1 content = false) →
        substituteAffLinks content = content) ∧
      ("<!DOCTYPE html>".data.isPrefixOf
          (pyStrip (substituteAffLinks content)) = false →
        process_blog_content content keyword
          = htmlShell
              (if (extract_title_text (substituteAffLinks content)).isEmpty then
                pyTitle keyword ++ " - Expert Guide".data
               else extract_title_text (substituteAffLinks content))
              (substituteAffLinks content)) := by
  intro content keyword
  refine ⟨?_, fun hd => by simp [process_blog_content, hd], fun h => ?_,
    fun hd => by simp [process_blog_content, hd]⟩
  · cases hd : "<!DOCTYPE html>".data.isPrefixOf
        (pyStrip (substituteAffLinks content)) with
    | true =>
      have he : process_blog_content content keyword
          = substituteAffLinks content := by
        simp [process_blog_content, hd]
      rw [he]
      exact isPrefixOf_ltrim_of_pyStrip hd
    | false =>
      have hd' : "<!DOCTYPE html>".data.isPrefixOf
          (pyStrip (substituteAffLinks content)) = false := hd
      have he : process_blog_content content keyword
          = htmlShell
              (if (extract_title_text (substituteAffLinks content)).isEmpty then
                pyTitle keyword ++ " - Expert Guide".data
               else extract_title_text (substituteAffLinks content))
              (substituteAffLinks content) := by
        simp [process_blog_content, hd']
      rw [he]
      exact doctype_prefixOf_ltrim_htmlShell _ _
  · exact foldl_replaceAll_id affiliate_links content h

/-- C10 witness: placeholder-free content already starting (after
whitespace) with a DOCTYPE passes through unchanged, and the invariant
holds on it. -/
theorem c10_doctype_invariant_witness :
    process_blog_content c10WitContent "k".data = c10WitContent ∧
    "<!DOCTYPE html>".data.isPrefixOf
        (ltrim (process_blog_content c10WitContent "k".data)) = true := by
  have h := c10_doctype_invariant c10WitContent "k".data
  have h3 : substituteAffLinks c10WitContent = c10WitContent :=
    h.2.2.1 (by decide)
  have h2 : process_blog_content c10WitContent "k".data
      = substituteAffLinks c10WitContent := h.2.1 (by decide)
  exact ⟨h2.trans h3, h.1⟩

/-! ### Claim C4 -/

theorem containsSub_fallbackContent_of_left {pat kw t : List Char}
    (now : List Char)
    (h : containsSub pat (fallbackPiece0 ++ t ++ fallbackPiece1 ++ t
      ++ fallbackPiece2 ++ kw ++ fallbackPiece3 ++ pyTitle kw
      ++ fallbackPiece4 ++ kw ++ fallbackPiece5 ++ kw ++ fallbackPiece6
      ++ kw ++ fallbackPiece7 ++ kw ++ fallbackPiece8 ++ kw
      ++ fallbackPiece9 ++ kw ++ fallbackPiece10) = true) :
    containsSub pat (fallbackContent kw t now) = true := by
  unfold fallbackContent
  exact containsSub_append_left _ (containsSub_append_left _ h)

/-- C4: with no model credential (or when the external call fails with
any error), `generate_blog_post` returns the fallback post — it never
propagates a failure; with no credential and keyword `"desk lamp"`, for
every date stamp the returned title contains the title-cased keyword
`"Desk Lamp"` and the content contains the three literal affiliate URLs
(`product1`, `product2`, `product3` variants) and a
`<div class="faq">` block. -/
theorem c4_fallback_on_missing_credential :
    (∀ (keyword : List Char) (seo : SeoData)
        (resp : Except (List Char) (List Char)) (now : List Char),
        generate_blog_post keyword seo none resp now
          = generate_fallback_content keyword seo now) ∧
    (∀ (keyword : List Char) (seo : SeoData) (key e now : List Char),
        generate_blog_post keyword seo (some key) (Except.error e) now
          = generate_fallback_content keyword seo now) ∧
    (∀ (resp : Except (List Char) (List Char)) (now : List Char),
      containsSub "Desk Lamp".data
          (generate_blog_post "desk lamp".data seoSample none resp now).title
        = true ∧
      containsSub "https://amazon.com/affiliate/product1?tag=yourtag".data
          (generate_blog_post "desk lamp".data seoSample none resp now).content
        = true ∧
      containsSub "https://amazon.com/affiliate/product2?tag=yourtag".data
          (generate_blog_post "desk lamp".data seoSample none resp now).content
        = true ∧
      containsSub "https://amazon.com/affiliate/product3?tag=yourtag".data
          (generate_blog_post "desk lamp".data seoSample none resp now).content
        = true ∧
      containsSub "<div class=\"faq\">".data
          (generate_blog_post "desk lamp".data seoSample none resp now).content
        = true) := by
  refine ⟨fun keyword seo resp now => rfl, fun keyword seo key e now => ?_, ?_⟩
  · cases key with
    | nil => rfl
    | cons a l => rfl
  · intro resp now
    refine ⟨?_, ?_, ?_, ?_, ?_⟩
    · show containsSub "Desk Lamp".data
        ("The Ultimate Guide to ".data ++ pyTitle "desk lamp".data
          ++ ": Everything You Need to Know".data) = true
      decide
    all_goals
      show containsSub _ (fallbackContent "desk lamp".data
        ("The Ultimate Guide to ".data ++ pyTitle "desk lamp".data
          ++ ": Everything You Need to Know".data) now) = true
    all_goals
      exact containsSub_fallbackContent_of_left now (by decide)

/-! ### Claim C3 -/

/-- C3 (code bug exhibit): `clean_markdown_artifacts` strips markdown
code fences, but the end-anchored `re.sub` also removes the single,
non-duplicated trailing `</body></html>` pair of a well-formed document,
contrary to the claim (and to the function's own comment, which says it
removes duplicated tags). -/
theorem c3_clean_markdown_artifacts_eval :
    clean_markdown_artifacts
        "<!DOCTYPE html>\n<html>\n<body>\n<p>Hello</p>\n</body>\n</html>".data
      = "<!DOCTYPE html>\n<html>\n<body>\n<p>Hello</p>".data ∧
    containsSub "</body>".data
        (clean_markdown_artifacts
          "<!DOCTYPE html>\n<html>\n<body>\n<p>Hello</p>\n</body>\n</html>".data)
      = false ∧
    clean_markdown_artifacts "```html\n<p>Hi</p>\n```".data = "<p>Hi</p>".data := by
  refine ⟨by decide, by decide, by decide⟩

end BlogGen
